import Mathlib

/-!
Shallow embedding of the tutoring-session core of the Quality-Education
backend (mongoose model `TutoringSessionModel`, service
`tutoringSessionService.js`, controller `tutoringSessionController.js`,
validation `tutoringSession.validation.js`, utils
`tutoringSessionUtils.js`).

Conventions of the embedding:
* JS numbers that the code treats as integers become `Int` (with explicit
  flooring where the code uses `Math.max`), ObjectIds become `Nat`,
  timestamps become `Int` (epoch milliseconds), strings stay `String`.
* A mongoose document save is `Except String Session`: the pre-save hook
  (duration computation) may throw, which aborts the save.
* `findByIdAndUpdate` with `runValidators: true` runs the schema update
  validators on exactly the paths present in the update (for validation a
  nested plain object is flattened into its subpaths) and does NOT run the
  `pre("save")` document middleware. The write itself sends the nested
  object as given, so `$set` of `schedule` or `capacity` REPLACES the whole
  subdocument: subfields absent from the payload are dropped from the
  stored document, not merged from it.
-/

deriving instance DecidableEq for Except

namespace QEB

/-- Participant status enum of the schema:
`["enrolled", "attended", "dropped", "cancelled"]`. -/
inductive PStatus where
  | enrolled
  | attended
  | dropped
  | cancelled
deriving DecidableEq, Repr

/-- One entry of `participants` in the schema: `userId` required,
`joinedAt` defaults to now, `status` defaults to `"enrolled"`,
`feedbackGiven` defaults to `false`. -/
structure Participant where
  userId : Nat
  joinedAt : Int
  status : PStatus
  feedbackGiven : Bool
  rating : Option Int
  feedback : Option String
deriving DecidableEq, Repr

/-- `capacity` sub-object of the schema: `maxParticipants` (min 1, max 100,
required) and `currentEnrolled` (default 0, min 0). -/
structure Capacity where
  maxParticipants : Int
  currentEnrolled : Int
deriving DecidableEq, Repr

/-- `schedule` sub-object of the schema: `date`, `startTime`/`endTime`
("HH:MM" strings) and the derived `duration` (default `null`). -/
structure Schedule where
  date : Int
  startTime : String
  endTime : String
  duration : Option Int
deriving DecidableEq, Repr

/-- The TutoringSession document (fields of the schema that the session
lifecycle reads or writes; `location` is kept opaque). -/
structure Session where
  tutor : Nat
  title : String
  subject : String
  description : String
  topic : Option String
  schedule : Schedule
  location : String
  capacity : Capacity
  participants : List Participant
  status : String
  level : String
  grade : String
  duration : Int
  tags : List String
  notes : Option String
  googleEventId : Option String
  isPublished : Bool
deriving DecidableEq, Repr

/-- `'0' ≤ c ≤ '9'`. -/
def isDigitCh (c : Char) : Bool := '0' ≤ c && c ≤ '9'

/-- Split a character list at every occurrence of `sep` (JS
`String.prototype.split` with a single-character separator: `"".split`
yields `[""]`, adjacent separators yield empty groups). -/
def splitCh (sep : Char) (l : List Char) : List (List Char) :=
  l.foldr
    (fun c acc =>
      match acc with
      | g :: rest => if c = sep then [] :: g :: rest else (c :: g) :: rest
      | [] => [[c]])
    [[]]

/-- Parse a non-empty all-digit character list as a decimal number (the
behavior of JS `Number` on the digit groups produced by splitting a string
accepted by the time regex; other inputs give `none`, standing for `NaN`). -/
def digitsToNat? (l : List Char) : Option Nat :=
  if l.isEmpty then none
  else
    l.foldl
      (fun acc c =>
        match acc with
        | none => none
        | some n => if '0' ≤ c ∧ c ≤ '9' then some (n * 10 + (c.toNat - '0'.toNat)) else none)
      (some 0)

/-- `c` mapped to lower case for ASCII letters (`String.prototype.toLowerCase`
restricted to the ASCII range used by this backend's fields). -/
def lowerCh (c : Char) : Char :=
  if 'A' ≤ c ∧ c ≤ 'Z' then Char.ofNat (c.toNat + 32) else c

/-- JS `toLowerCase` (ASCII). -/
def jsToLower (s : String) : String := ⟨s.data.map lowerCh⟩

/-- ASCII whitespace. -/
def isSpaceCh (c : Char) : Bool := c = ' ' ∨ c = '\t' ∨ c = '\n' ∨ c = '\r'

/-- JS `String.prototype.trim` (ASCII whitespace). -/
def jsTrim (s : String) : String :=
  ⟨((s.data.dropWhile isSpaceCh).reverse.dropWhile isSpaceCh).reverse⟩

/-- The time regex `^([01]?[0-9]|2[0-3]):[0-5][0-9]$` shared by the schema
`match` validators, `validateSessionPayload` and the controller. -/
def timeRegexTest (s : String) : Bool :=
  match s.toList with
  | [h, ':', m1, m2] =>
      isDigitCh h && '0' ≤ m1 && m1 ≤ '5' && isDigitCh m2
  | [h1, h2, ':', m1, m2] =>
      (((h1 = '0' || h1 = '1') && isDigitCh h2)
        || (h1 = '2' && '0' ≤ h2 && h2 ≤ '3'))
      && '0' ≤ m1 && m1 ≤ '5' && isDigitCh m2
  | _ => false

/-- `time.split(":").map(Number)` of the pre-save hook, for strings made of
decimal digit groups (every string accepted by the time regex is one); other
strings yield `none` (in JS they yield `NaN`, which makes the save fail when
the resulting duration is cast). -/
def timeToMinutes (s : String) : Option Int :=
  match splitCh ':' s.data with
  | [h, m] =>
      match digitsToNat? h, digitsToNat? m with
      | some hn, some mn => some (hn * 60 + mn)
      | _, _ => none
  | _ => none

/-- `tutoringSessionSchema.pre("save")`: when both `startTime` and `endTime`
are truthy, recompute `duration = endTotalMinutes - startTotalMinutes`,
throwing `"End time must be after start time"` when it is `≤ 0`, and store
it in `schedule.duration`. -/
def preSaveHook (s : Session) : Except String Session :=
  if s.schedule.startTime ≠ "" && s.schedule.endTime ≠ "" then
    match timeToMinutes s.schedule.startTime, timeToMinutes s.schedule.endTime with
    | some st, some et =>
        if et - st ≤ 0 then .error "End time must be after start time"
        else .ok { s with schedule := { s.schedule with duration := some (et - st) } }
    | _, _ => .error "Cast to Number failed"
  else .ok s

/-- `availableSeats` virtual. -/
def availableSeats (s : Session) : Int :=
  s.capacity.maxParticipants - s.capacity.currentEnrolled

/-- `isFull` virtual: `currentEnrolled >= maxParticipants`. -/
def isFull (s : Session) : Bool :=
  s.capacity.maxParticipants ≤ s.capacity.currentEnrolled

/-- A fresh participant record as pushed by `addParticipant`:
`{ userId }` plus the schema defaults. -/
def freshParticipant (now : Int) (userId : Nat) : Participant :=
  { userId := userId, joinedAt := now, status := .enrolled,
    feedbackGiven := false, rating := none, feedback := none }

/-- `tutoringSessionSchema.methods.addParticipant`: throws
`"Session is at full capacity"` when `isFull`; throws
`"User is already enrolled in this session"` when some participant (of any
status) has this `userId`; otherwise pushes `{ userId }`, increments
`capacity.currentEnrolled` by 1 and saves (running the pre-save hook). -/
def addParticipant (now : Int) (userId : Nat) (s : Session) : Except String Session :=
  if isFull s then .error "Session is at full capacity"
  else if s.participants.any (fun p => p.userId == userId) then
    .error "User is already enrolled in this session"
  else
    preSaveHook { s with
      participants := s.participants ++ [freshParticipant now userId],
      capacity := { s.capacity with
        currentEnrolled := s.capacity.currentEnrolled + 1 } }

/-- `tutoringSessionSchema.methods.removeParticipant`: throws
`"User is not enrolled in this session"` when no participant has this
`userId`; otherwise splices out the first matching record, sets
`currentEnrolled = Math.max(0, currentEnrolled - 1)` and saves. -/
def removeParticipant (userId : Nat) (s : Session) : Except String Session :=
  match s.participants.findIdx? (fun p => p.userId == userId) with
  | none => .error "User is not enrolled in this session"
  | some i =>
      preSaveHook { s with
        participants := s.participants.eraseIdx i,
        capacity := { s.capacity with
          currentEnrolled := max 0 (s.capacity.currentEnrolled - 1) } }

/-! ### Service layer (`tutoringSessionService.js`) and validation
(`tutoringSession.validation.js`). -/

/-- The authenticated request user (`req.user`). -/
structure User where
  userId : Nat
  role : String
deriving DecidableEq, Repr

/-- `payload.schedule` of a create request. -/
structure SchedulePayload where
  date : Int
  startTime : String
  endTime : String
deriving DecidableEq, Repr

/-- `payload.capacity` of a create request; a client may also send its own
`currentEnrolled`, which both create paths ignore. -/
structure CapacityPayload where
  maxParticipants : Int
  currentEnrolled : Option Int
deriving DecidableEq, Repr

/-- The body of a create-session request (fields the service and controller
destructure; `participants` may be sent by a client but is never read). -/
structure SessionPayload where
  title : Option String
  subject : String
  description : String
  schedule : SchedulePayload
  capacity : CapacityPayload
  participants : Option (List Participant)
  topic : Option String
  location : Option String
  level : Option String
  tags : Option (List String)
  notes : Option String
  grade : Option String
  duration : Option Int
deriving DecidableEq, Repr

/-- JS `a || b` for an optional string field (absent and `""` are falsy). -/
def orStr (o : Option String) (d : String) : String :=
  match o with
  | some s => if s = "" then d else s
  | none => d

/-- JS `a || b` for an optional number field (absent and `0` are falsy). -/
def orInt (o : Option Int) (d : Int) : Int :=
  match o with
  | some n => if n = 0 then d else n
  | none => d

/-- `validateSessionPayload` of `tutoringSession.validation.js`: requires
subject/description (truthy), the three schedule fields (truthy), HH:MM
format of both times, a strictly future date, and `maxParticipants`
between 1 and 100. `now` is the clock value of `new Date()`. -/
def validateSessionPayload (now : Int) (b : SessionPayload) : Except String Unit :=
  if b.subject = "" || b.description = "" then
    .error "subject, description and schedule are required"
  else if b.schedule.date = 0 || b.schedule.startTime = "" || b.schedule.endTime = "" then
    .error "schedule must include date, startTime and endTime"
  else if ¬(timeRegexTest b.schedule.startTime && timeRegexTest b.schedule.endTime) then
    .error "Time must be in HH:MM format"
  else if b.schedule.date ≤ now then
    .error "Session date must be a valid future date"
  else if b.capacity.maxParticipants < 1 || 100 < b.capacity.maxParticipants then
    .error "capacity.maxParticipants must be between 1 and 100"
  else .ok ()

/-- The `sessionData` object built by `createSession` in
`tutoringSessionService.js` (lines 40–55): `tutor` is the caller,
`currentEnrolled` is the literal `0`, and no `participants` key is set, so
the schema default `[]` applies; `status` likewise defaults to
`"scheduled"` and `googleEventId` is unset. -/
def serviceSessionData (user : User) (b : SessionPayload) : Session :=
  { tutor := user.userId
    title := orStr b.title b.subject
    subject := jsToLower (jsTrim b.subject)
    description := jsTrim b.description
    topic := match b.topic with
      | some t => if t = "" then none else some (jsTrim t)
      | none => none
    grade := orStr b.grade (orStr b.level "intermediate")
    duration := orInt b.duration 60
    schedule := { date := b.schedule.date, startTime := b.schedule.startTime,
                  endTime := b.schedule.endTime, duration := none }
    location := orStr b.location "online"
    capacity := { maxParticipants := b.capacity.maxParticipants, currentEnrolled := 0 }
    level := orStr b.level "intermediate"
    tags := ((b.tags.getD []).map (fun t => jsToLower (jsTrim t))).filter (· ≠ "")
    notes := match b.notes with
      | some n => if n = "" then none else some (jsTrim n)
      | none => none
    googleEventId := none
    isPublished := true
    status := "scheduled"
    participants := [] }

/-- `createSession` of the service: validate the payload, build
`sessionData` and persist it with `TutoringSession.create` (which runs the
pre-save hook). The subsequent best-effort calendar create does not change
the enrollment state and is omitted here. -/
def createSession (now : Int) (user : User) (b : SessionPayload) : Except String Session :=
  match validateSessionPayload now b with
  | .error e => .error e
  | .ok _ => preSaveHook (serviceSessionData user b)

/-- `checkOwnershipOrAdmin` of the service. -/
def checkOwnershipOrAdmin (s : Session) (user : User) : Except String Unit :=
  if s.tutor == user.userId || user.role == "admin" then .ok ()
  else .error "Not authorized to perform this action"

/-- A sparse `capacity` object in an update body. -/
structure CapacityU where
  maxParticipants : Option Int
  currentEnrolled : Option Int
deriving DecidableEq, Repr

/-- A sparse `schedule` object in an update body. -/
structure ScheduleU where
  date : Option Int
  startTime : Option String
  endTime : Option String
deriving DecidableEq, Repr

/-- The body of an update request: any subset of the whitelisted fields,
plus `tutor` and `participants`, which a client may send but which the
whitelist in `updateSession` drops. -/
structure UpdatePayload where
  title : Option String
  subject : Option String
  description : Option String
  topic : Option String
  schedule : Option ScheduleU
  location : Option String
  level : Option String
  grade : Option String
  duration : Option Int
  tags : Option (List String)
  notes : Option String
  status : Option String
  capacity : Option CapacityU
  tutor : Option Nat
  participants : Option (List Participant)
deriving DecidableEq, Repr

/-- An `UpdatePayload` with no field present (`{}`). -/
def emptyUpdate : UpdatePayload :=
  { title := none, subject := none, description := none, topic := none,
    schedule := none, location := none, level := none, grade := none,
    duration := none, tags := none, notes := none, status := none,
    capacity := none, tutor := none, participants := none }

/-- JS truthiness of an optional string. -/
def truthyStr (o : Option String) : Bool :=
  match o with
  | some s => s ≠ ""
  | none => false

/-- `validateUpdatePayload`: when `updates.schedule` carries a truthy
`startTime` or `endTime`, both must pass the time regex (an absent one is
tested as `undefined` and fails). -/
def validateUpdatePayload (u : UpdatePayload) : Except String Unit :=
  match u.schedule with
  | none => .ok ()
  | some sch =>
      if truthyStr sch.startTime || truthyStr sch.endTime then
        if timeRegexTest (sch.startTime.getD "") && timeRegexTest (sch.endTime.getD "") then
          .ok ()
        else .error "Time must be in HH:MM format"
      else .ok ()

/-- The schema update validators that `findByIdAndUpdate` with
`runValidators: true` runs on the dotted paths present in the update:
the future-date custom validator on `schedule.date`, the time-regex
`match` validators, the `capacity` bounds, and the `status` / `level`
enums. Validators never look at the stored document, only at the update. -/
def updateValidators (now : Int) (u : UpdatePayload) : Except String Unit :=
  match u.schedule with
  | some sch =>
      match sch.date with
      | some d =>
          if d ≤ now then .error "Session date must be in the future"
          else validatorsAfterDate now u
      | none => validatorsAfterDate now u
  | none => validatorsAfterDate now u
where
  validatorsAfterDate (_now : Int) (u : UpdatePayload) : Except String Unit :=
    let timesOk :=
      match u.schedule with
      | some sch =>
          (match sch.startTime with
           | some t => timeRegexTest t
           | none => true) &&
          (match sch.endTime with
           | some t => timeRegexTest t
           | none => true)
      | none => true
    if timesOk then
      match u.capacity with
      | some c =>
          let maxBad : Bool := match c.maxParticipants with
            | some m => decide (m < 1 ∨ 100 < m)
            | none => false
          let curBad : Bool := match c.currentEnrolled with
            | some ce => decide (ce < 0)
            | none => false
          if maxBad then .error "Capacity must be at least 1"
          else if curBad then .error "Path currentEnrolled is less than minimum"
          else statusLevelValidators u
      | none => statusLevelValidators u
    else .error "Start time must be in HH:MM format"
  statusLevelValidators (u : UpdatePayload) : Except String Unit :=
    match u.status with
    | some st =>
        if st ∈ ["scheduled", "in-progress", "completed", "cancelled"] then
          match u.level with
          | some lv =>
              if lv ∈ ["beginner", "intermediate", "advanced"] then .ok ()
              else .error "Level must be beginner, intermediate, or advanced"
          | none => .ok ()
        else .error "Status must be one of: scheduled, in-progress, completed, or cancelled"
    | none =>
        match u.level with
        | some lv =>
            if lv ∈ ["beginner", "intermediate", "advanced"] then .ok ()
            else .error "Level must be beginner, intermediate, or advanced"
        | none => .ok ()

/-- The `$set` that `updateSession` issues: the whitelisted fields present
in `updates` (`allowed.forEach((k) => { if (k in updates) data[k] = ... })`)
written over the stored document. Top-level scalar/array paths are set
individually; a nested plain object (`schedule`, `capacity`) is `$set` as
a whole and REPLACES the stored subdocument, dropping every subfield the
payload does not carry — in particular a schedule write always drops the
stored `schedule.duration` (the pre-save hook does not run, so it is never
recomputed). A dropped string path is modelled as `""`, which is falsy
exactly like the missing path in every read this embedding performs; a
dropped numeric path is modelled as `0` (no judged theorem reads one).
`tutor` and `participants` are not in the whitelist and are never written.
The schema `lowercase`/`trim` setters apply to the written string paths. -/
def applyUpdate (s : Session) (u : UpdatePayload) : Session :=
  { s with
    title := u.title.getD s.title
    subject := (u.subject.map (fun x => jsToLower (jsTrim x))).getD s.subject
    description := (u.description.map jsTrim).getD s.description
    topic := (u.topic.map (fun t => some (jsTrim t))).getD s.topic
    schedule := match u.schedule with
      | none => s.schedule
      | some sch =>
          { date := sch.date.getD 0
            startTime := sch.startTime.getD ""
            endTime := sch.endTime.getD ""
            duration := none }
    location := u.location.getD s.location
    level := u.level.getD s.level
    grade := u.grade.getD s.grade
    duration := u.duration.getD s.duration
    tags := (u.tags.map (List.map (fun t => jsToLower (jsTrim t)))).getD s.tags
    notes := (u.notes.map (fun n => some (jsTrim n))).getD s.notes
    status := u.status.getD s.status
    capacity := match u.capacity with
      | none => s.capacity
      | some c =>
          { maxParticipants := c.maxParticipants.getD 0
            currentEnrolled := c.currentEnrolled.getD 0 } }

/-- `updateSession` of the service: validate the payload, load the session
(given here), check ownership, pick the whitelisted fields and apply them
via `findByIdAndUpdate` with `runValidators: true`. The best-effort
calendar update afterwards does not change the result. -/
def updateSession (now : Int) (user : User) (s : Session) (u : UpdatePayload) :
    Except String Session :=
  match validateUpdatePayload u with
  | .error e => .error e
  | .ok _ =>
      match checkOwnershipOrAdmin s user with
      | .error e => .error e
      | .ok _ =>
          match updateValidators now u with
          | .error e => .error e
          | .ok _ => .ok (applyUpdate s u)

/-- Observable storage events of `deleteSession`. -/
inductive DeleteEvent where
  | calendarDelete (ref : String)
  | removeRecord
deriving DecidableEq, Repr

/-- The external `deleteCalendarEvent` call, which may throw. -/
def deleteCalendarEvent (fails : Bool) : Except String Unit :=
  if fails then .error "calendar failure" else .ok ()

/-- `deleteSession` of the service: ownership check; when `googleEventId`
is set, the calendar delete is attempted inside `try { ... } catch` (the
error is logged and discarded), and `findByIdAndDelete` then removes the
record unconditionally. The returned trace lists the storage-visible
events in order. -/
def deleteSession (user : User) (s : Session) (calendarFails : Bool) :
    Except String (List DeleteEvent) :=
  match checkOwnershipOrAdmin s user with
  | .error e => .error e
  | .ok _ =>
      match s.googleEventId with
      | some ref =>
          match deleteCalendarEvent calendarFails with
          | .ok _ => .ok [.calendarDelete ref, .removeRecord]
          | .error _ => .ok [.calendarDelete ref, .removeRecord]
      | none => .ok [.removeRecord]

/-- `joinSession` of the service: after the auth and existence checks it
delegates to `addParticipant` (entity errors are re-thrown as
`BadRequestError` with the same message) and returns the updated
`capacity.currentEnrolled`. -/
def joinSession (now : Int) (user : User) (s : Session) : Except String Int :=
  match addParticipant now user.userId s with
  | .error e => .error e
  | .ok t => .ok t.capacity.currentEnrolled

/-- `leaveSession` of the service, symmetric to `joinSession` via
`removeParticipant`. -/
def leaveSession (user : User) (s : Session) : Except String Int :=
  match removeParticipant user.userId s with
  | .error e => .error e
  | .ok t => .ok t.capacity.currentEnrolled

/-! ### Controller layer (`tutoringSessionController.js`). -/

/-- The `sessionData` object built by `createTutoringSession` in the
controller (lines 148–169): `currentEnrolled` is the literal `0` and no
`participants` key is present (schema default `[]`). -/
def controllerSessionData (tutorId : Nat) (b : SessionPayload) : Session :=
  { tutor := tutorId
    title := b.subject
    subject := jsToLower (jsTrim b.subject)
    description := jsTrim b.description
    topic := b.topic.map jsTrim
    grade := orStr b.level "intermediate"
    duration := 60
    schedule := { date := b.schedule.date, startTime := b.schedule.startTime,
                  endTime := b.schedule.endTime, duration := none }
    location := orStr b.location "online"
    capacity := { maxParticipants := b.capacity.maxParticipants, currentEnrolled := 0 }
    level := orStr b.level "intermediate"
    tags := (b.tags.getD []).map (fun t => jsToLower (jsTrim t))
    notes := b.notes.map jsTrim
    googleEventId := none
    isPublished := false
    status := "scheduled"
    participants := [] }

/-- The status/date part of the mongo filter built by
`getAllTutoringSessions`: which statuses pass, and whether
`schedule.date ≥ now` is required. -/
structure ListFilter where
  statusIn : Option (List String)
  dateGteNow : Bool
deriving DecidableEq, Repr

/-- The status/date filter construction of `getAllTutoringSessions`
(controller lines 236–256). `includeCompleted` is the raw query value
(`none` means absent, so the destructuring default `false` applies) and
`status` the raw query value (destructuring default `"scheduled"`).
* `includeCompleted === "false" || includeCompleted === false`:
  `$and [{schedule.date ≥ now}, {status: "scheduled"}]`.
* `String(includeCompleted).toLowerCase() === "true"`:
  `$or [{status ∈ [scheduled, in-progress, completed]}]`, no date bound.
* otherwise, `status && status !== "all"`: `{status}`; else no restriction. -/
def buildStatusDateFilter (includeCompleted : Option String) (status : Option String) :
    ListFilter :=
  let effStatus := status.getD "scheduled"
  match includeCompleted with
  | none => { statusIn := some ["scheduled"], dateGteNow := true }
  | some ic =>
      if ic = "false" then { statusIn := some ["scheduled"], dateGteNow := true }
      else if jsToLower ic = "true" then
        { statusIn := some ["scheduled", "in-progress", "completed"], dateGteNow := false }
      else if effStatus ≠ "" && effStatus ≠ "all" then
        { statusIn := some [effStatus], dateGteNow := false }
      else { statusIn := none, dateGteNow := false }

/-- Whether a stored session matches the status/date part of the filter. -/
def filterMatches (f : ListFilter) (now : Int) (s : Session) : Bool :=
  (match f.statusIn with
   | none => true
   | some l => s.status ∈ l)
  && (if f.dateGteNow then decide (now ≤ s.schedule.date) else true)

/-! ### Concurrency model for `joinSession`.

One join request is `findById` (read the stored document into a local
copy) followed by `addParticipant` run on that copy, whose `save` writes
the local changes back: mongoose turns the `participants.push` into a
`$push` of the new record and the modified `capacity.currentEnrolled` and
`schedule.duration` paths into `$set`s of their in-memory values. Nothing
in the code makes the read-check-write sequence atomic, so requests may
interleave at the document level. -/

/-- The write-back of one successful join's `save`. -/
structure JoinWrite where
  newRec : Participant
  setEnrolled : Int
  setDuration : Option Int
deriving DecidableEq, Repr

/-- The check-and-build part of `addParticipant` run on the local copy
`local_` of the document, producing the write-back on success. -/
def joinLocal (now : Int) (uid : Nat) (local_ : Session) : Except String JoinWrite :=
  match addParticipant now uid local_ with
  | .error e => .error e
  | .ok t =>
      .ok { newRec := freshParticipant now uid,
            setEnrolled := t.capacity.currentEnrolled,
            setDuration := t.schedule.duration }

/-- Apply a join's write-back to the stored document. -/
def applyJoinWrite (store : Session) (w : JoinWrite) : Session :=
  { store with
    participants := store.participants ++ [w.newRec]
    capacity := { store.capacity with currentEnrolled := w.setEnrolled }
    schedule := { store.schedule with duration := w.setDuration } }

/-- Progress of one in-flight join request. -/
inductive JoinPhase where
  | start
  | loaded (localCopy : Session)
  | done (success : Bool)
deriving DecidableEq, Repr

/-- Global state: the stored document plus each request's phase. -/
structure ConcState where
  store : Session
  ops : List (Nat × JoinPhase)
deriving DecidableEq, Repr

/-- Advance request `i` by one atomic step: `start → loaded` performs the
`findById` read; `loaded → done` runs the capacity/duplicate check on the
stale local copy and, on success, commits the write-back. -/
def concStep (now : Int) (cs : ConcState) (i : Nat) : ConcState :=
  match cs.ops.get? i with
  | none => cs
  | some (uid, ph) =>
      match ph with
      | .start => { cs with ops := cs.ops.set i (uid, .loaded cs.store) }
      | .loaded localCopy =>
          match joinLocal now uid localCopy with
          | .ok w =>
              { store := applyJoinWrite cs.store w,
                ops := cs.ops.set i (uid, .done true) }
          | .error _ => { cs with ops := cs.ops.set i (uid, .done false) }
      | .done _ => cs

/-- Run a list of concurrent join requests under an interleaving
`sched` (each entry names the request that takes the next step). -/
def runConcurrent (now : Int) (s : Session) (uids : List Nat) (sched : List Nat) :
    ConcState :=
  sched.foldl (concStep now) { store := s, ops := uids.map (fun u => (u, .start)) }

/-- Number of requests that finished successfully. -/
def successCount (cs : ConcState) : Nat :=
  cs.ops.countP (fun p => p.2 == .done true)

/-- One serialized join: apply `addParticipant` to the stored document,
counting a success; a failed join leaves the document unchanged. -/
def seqStep (now : Int) (acc : Session × Nat) (uid : Nat) : Session × Nat :=
  match addParticipant now uid acc.1 with
  | .ok t => (t, acc.2 + 1)
  | .error _ => acc

/-- Sequential (serialized) application of join requests: each request's
load-check-write finishes before the next starts, which collapses to
folding `addParticipant` over the stored document. Returns the final
document and the number of successful joins. -/
def runSequential (now : Int) (s : Session) (uids : List Nat) : Session × Nat :=
  uids.foldl (seqStep now) (s, 0)

/-! ### Operation sequences for the capacity invariant. -/

/-- The capacity invariant of the spec:
`0 ≤ currentEnrolled ≤ maxParticipants`. -/
def capacityInv (s : Session) : Prop :=
  0 ≤ s.capacity.currentEnrolled ∧
    s.capacity.currentEnrolled ≤ s.capacity.maxParticipants

instance (s : Session) : Decidable (capacityInv s) := by
  unfold capacityInv; infer_instance

/-- One session operation after creation. -/
inductive Op where
  | add (now : Int) (uid : Nat)
  | remove (uid : Nat)
  | update (now : Int) (user : User) (u : UpdatePayload)
deriving Repr

/-- Apply one operation to the stored session; a thrown error leaves the
stored document unchanged. -/
def applyOp (s : Session) : Op → Session
  | .add now uid =>
      match addParticipant now uid s with
      | .ok t => t
      | .error _ => s
  | .remove uid =>
      match removeParticipant uid s with
      | .ok t => t
      | .error _ => s
  | .update now user u =>
      match updateSession now user s u with
      | .ok t => t
      | .error _ => s

/-- Apply a sequence of operations. -/
def applyOps (s : Session) (ops : List Op) : Session :=
  ops.foldl applyOp s

/-- An operation whose update payload does not touch `capacity`. -/
def capacitySafe : Op → Prop
  | .update _ _ u => u.capacity = none
  | _ => True

/-! ### Concrete fixtures used by witnesses and counterexamples. -/

/-- A well-formed stored session: one hour long, 2 of 10 seats taken. -/
def sBase : Session :=
  { tutor := 1, title := "t", subject := "math", description := "desc desc desc",
    topic := none,
    schedule := { date := 1000, startTime := "10:00", endTime := "11:00", duration := some 60 },
    location := "online", capacity := { maxParticipants := 10, currentEnrolled := 2 },
    participants := [freshParticipant 5 100, freshParticipant 6 101],
    status := "scheduled", level := "intermediate", grade := "intermediate",
    duration := 60, tags := [], notes := none, googleEventId := some "ev1",
    isPublished := true }

/-- The owning tutor of `sBase`. -/
def owner : User := { userId := 1, role := "tutor" }

/-- A create body that also smuggles in `capacity.currentEnrolled = 99` and
a non-empty `participants` array. -/
def payload0 : SessionPayload :=
  { title := none, subject := "Math", description := "a good description",
    schedule := { date := 2000, startTime := "10:00", endTime := "11:00" },
    capacity := { maxParticipants := 10, currentEnrolled := some 99 },
    participants := some [freshParticipant 3 77], topic := none, location := none,
    level := none, tags := none, notes := none, grade := none, duration := none }

/-- The session `createSession 100 owner payload0` persists. -/
def created0 : Session :=
  { serviceSessionData owner payload0 with
    schedule := { (serviceSessionData owner payload0).schedule with duration := some 60 } }

/-! ### Helper lemmas. -/

/-- The pre-save hook touches only `schedule.duration`. -/
theorem preSaveHook_ok_frame {s t : Session} (h : preSaveHook s = .ok t) :
    t.capacity = s.capacity ∧ t.participants = s.participants ∧ t.tutor = s.tutor := by
  unfold preSaveHook at h
  split at h
  · split at h
    · split at h
      · simp at h
      · cases h; exact ⟨rfl, rfl, rfl⟩
    · simp at h
  · cases h; exact ⟨rfl, rfl, rfl⟩

/-- A successful `addParticipant` presupposes a free seat and increments
the counter by exactly one, not touching `maxParticipants`. -/
theorem addParticipant_ok_capacity {now : Int} {uid : Nat} {s t : Session}
    (h : addParticipant now uid s = .ok t) :
    s.capacity.currentEnrolled < s.capacity.maxParticipants ∧
      t.capacity.maxParticipants = s.capacity.maxParticipants ∧
      t.capacity.currentEnrolled = s.capacity.currentEnrolled + 1 := by
  unfold addParticipant isFull at h
  split at h
  · simp at h
  · split at h
    · simp at h
    · rename_i hfull _
      simp only [decide_eq_true_eq] at hfull
      obtain ⟨hc, -, -⟩ := preSaveHook_ok_frame h
      refine ⟨by omega, ?_, ?_⟩ <;> rw [hc]

/-- A successful `removeParticipant` decrements the counter, floored at 0,
and keeps `maxParticipants`. -/
theorem removeParticipant_ok_capacity {uid : Nat} {s t : Session}
    (h : removeParticipant uid s = .ok t) :
    t.capacity.maxParticipants = s.capacity.maxParticipants ∧
      t.capacity.currentEnrolled = max 0 (s.capacity.currentEnrolled - 1) := by
  unfold removeParticipant at h
  split at h
  · simp at h
  · obtain ⟨hc, -, -⟩ := preSaveHook_ok_frame h
    exact ⟨by rw [hc], by rw [hc]⟩

/-- A successful `updateSession` whose payload has no `capacity` key keeps
the stored capacity. -/
theorem updateSession_ok_capacity_frame {now : Int} {user : User} {s t : Session}
    {u : UpdatePayload} (hcap : u.capacity = none)
    (h : updateSession now user s u = .ok t) :
    t.capacity = s.capacity := by
  unfold updateSession at h
  split at h
  · simp at h
  · split at h
    · simp at h
    · split at h
      · simp at h
      · cases h
        unfold applyUpdate
        rw [hcap]

/-- `validateSessionPayload` succeeding bounds `maxParticipants`. -/
theorem validateSessionPayload_ok_capacity {now : Int} {b : SessionPayload}
    (h : validateSessionPayload now b = .ok ()) :
    1 ≤ b.capacity.maxParticipants ∧ b.capacity.maxParticipants ≤ 100 := by
  unfold validateSessionPayload at h
  split at h; · simp at h
  split at h; · simp at h
  split at h; · simp at h
  split at h; · simp at h
  split at h
  · simp at h
  · rename_i hcap
    simp only [Bool.or_eq_true, decide_eq_true_eq, not_or, not_lt] at hcap
    omega

/-! ### Claim theorems. -/

/-- C8: `deleteSession` on a session with a set external calendar
reference (`googleEventId`) attempts the calendar deletion before removing
the session record (the trace lists `calendarDelete` strictly before
`removeRecord`), and whether the calendar deletion throws or not
(`calendarFails` arbitrary) the record is still removed and the caller
gets the same successful result, never observing the calendar failure. -/
theorem deleteSession_calendar_failure_nonfatal
    (user : User) (s : Session) (ref : String) (calendarFails : Bool)
    (href : s.googleEventId = some ref)
    (hauth : s.tutor = user.userId ∨ user.role = "admin") :
    deleteSession user s calendarFails = .ok [.calendarDelete ref, .removeRecord] := by
  unfold deleteSession checkOwnershipOrAdmin deleteCalendarEvent
  have hcond : (s.tutor == user.userId || user.role == "admin") = true := by
    rcases hauth with h | h <;> simp [h]
  rw [hcond, href]
  cases calendarFails <;> rfl

/-- C8 witness: deleting `sBase` (calendar ref `"ev1"`) as its owner with
a throwing calendar still removes the record after one calendar attempt. -/
theorem deleteSession_calendar_failure_nonfatal_witness :
    deleteSession owner sBase true = .ok [.calendarDelete "ev1", .removeRecord] :=
  deleteSession_calendar_failure_nonfatal owner sBase "ev1" true rfl (Or.inl rfl)

/-- C9: a successful `updateSession` changes only whitelisted fields; in
particular the `tutor` field and the `participants` list of the stored
session are unchanged for every update payload (even one that supplies
`tutor` or `participants`), so the tutor is immutable through the update
path. -/
theorem updateSession_whitelist_frame
    (now : Int) (user : User) (s : Session) (u : UpdatePayload) (t : Session)
    (h : updateSession now user s u = .ok t) :
    t.tutor = s.tutor ∧ t.participants = s.participants := by
  unfold updateSession at h
  split at h
  · simp at h
  · split at h
    · simp at h
    · split at h
      · simp at h
      · cases h; exact ⟨rfl, rfl⟩

/-- An update body trying to overwrite `tutor` and `participants`. -/
def updSmuggle : UpdatePayload :=
  { emptyUpdate with
    title := some "new"
    tutor := some 9
    participants := some [] }

/-- C9 witness: an update payload that tries to set `tutor := 9` and a new
`participants` list leaves both untouched on `sBase`. -/
theorem updateSession_whitelist_frame_witness :
    ∃ t, updateSession 50 owner sBase updSmuggle = .ok t ∧
      t.tutor = sBase.tutor ∧ t.participants = sBase.participants :=
  ⟨applyUpdate sBase updSmuggle, by decide,
    updateSession_whitelist_frame 50 owner sBase updSmuggle
      (applyUpdate sBase updSmuggle) (by decide)⟩

/-- C10: every session persisted by the service's `createSession` has
`capacity.currentEnrolled = 0` and an empty `participants` list, whatever
the client payload contains (including a payload carrying its own
`currentEnrolled` or `participants`); the controller's `sessionData`
construction has the same property. -/
theorem createSession_fresh_roster :
    (∀ (now : Int) (user : User) (b : SessionPayload) (s : Session),
        createSession now user b = .ok s →
          s.capacity.currentEnrolled = 0 ∧ s.participants = []) ∧
    (∀ (tutorId : Nat) (b : SessionPayload),
        (controllerSessionData tutorId b).capacity.currentEnrolled = 0 ∧
          (controllerSessionData tutorId b).participants = []) := by
  constructor
  · intro now user b s h
    unfold createSession at h
    split at h
    · simp at h
    · obtain ⟨hc, hp, -⟩ := preSaveHook_ok_frame h
      exact ⟨by rw [hc]; rfl, by rw [hp]; rfl⟩
  · intro tutorId b
    exact ⟨rfl, rfl⟩

/-- C10 witness: `payload0` smuggles `currentEnrolled = 99` and a
participant; the created session still starts at 0 with an empty roster. -/
theorem createSession_fresh_roster_witness :
    created0.capacity.currentEnrolled = 0 ∧ created0.participants = [] :=
  createSession_fresh_roster.1 100 owner payload0 created0 (by decide)

/-- A session created through `createSession` satisfies the capacity
invariant. -/
theorem createSession_capacityInv {now : Int} {user : User} {b : SessionPayload}
    {s : Session} (h : createSession now user b = .ok s) : capacityInv s := by
  unfold createSession at h
  split at h
  · simp at h
  · rename_i a heq
    cases a
    obtain ⟨hmax1, -⟩ := validateSessionPayload_ok_capacity heq
    obtain ⟨hc, -, -⟩ := preSaveHook_ok_frame h
    unfold capacityInv
    rw [hc]
    exact ⟨le_refl 0, by exact_mod_cast le_trans one_pos.le hmax1⟩

/-- A capacity-safe operation preserves the capacity invariant. -/
theorem capacityInv_applyOp {s : Session} {op : Op}
    (hs : capacityInv s) (hsafe : capacitySafe op) : capacityInv (applyOp s op) := by
  obtain ⟨h0, h1⟩ := hs
  cases op with
  | add now uid =>
      simp only [applyOp]
      cases h : addParticipant now uid s with
      | error e => exact ⟨h0, h1⟩
      | ok t =>
          dsimp only
          obtain ⟨hlt, hmax, hcur⟩ := addParticipant_ok_capacity h
          exact ⟨by omega, by omega⟩
  | remove uid =>
      simp only [applyOp]
      cases h : removeParticipant uid s with
      | error e => exact ⟨h0, h1⟩
      | ok t =>
          dsimp only
          obtain ⟨hmax, hcur⟩ := removeParticipant_ok_capacity h
          constructor
          · rw [hcur]; exact le_max_left 0 _
          · rw [hcur, hmax, Int.max_def]
            split <;> omega
  | update now user u =>
      simp only [applyOp]
      cases h : updateSession now user s u with
      | error e => exact ⟨h0, h1⟩
      | ok t =>
          dsimp only
          have hc := updateSession_ok_capacity_frame hsafe h
          unfold capacityInv
          rw [hc]
          exact ⟨h0, h1⟩

/-- C1 (amended): the capacity invariant
`0 ≤ currentEnrolled ≤ maxParticipants` holds after `createSession` and is
preserved by any sequence of `addParticipant`, `removeParticipant` and
updates whose payload does not touch `capacity`; a capacity-carrying
update can break it (see the counterexample). -/
theorem capacityInv_after_capacity_safe_ops
    (now0 : Int) (user : User) (b : SessionPayload) (s : Session) (ops : List Op)
    (hcreate : createSession now0 user b = .ok s)
    (hsafe : ∀ op ∈ ops, capacitySafe op) :
    capacityInv (applyOps s ops) := by
  have hinv : capacityInv s := createSession_capacityInv hcreate
  clear hcreate
  induction ops generalizing s with
  | nil => exact hinv
  | cons op rest ih =>
      exact ih (applyOp s op)
        (fun o ho => hsafe o (List.mem_cons_of_mem _ ho))
        (capacityInv_applyOp hinv (hsafe op (List.mem_cons_self _ _)))

/-- An update body carrying `capacity: { maxParticipants: 5,
currentEnrolled: 7 }` — every schema update validator accepts it. -/
def updBad : UpdatePayload :=
  { emptyUpdate with
    capacity := some { maxParticipants := some 5, currentEnrolled := some 7 } }

/-- `created0` after the `updBad` update. -/
def created0Bad : Session :=
  { created0 with capacity := { maxParticipants := 5, currentEnrolled := 7 } }

/-- C1 counterexample: a session fresh from `createSession` satisfies the
invariant, but a single `updateSession` with payload
`capacity: { maxParticipants: 5, currentEnrolled: 7 }` succeeds (mongoose
only validates `maxParticipants ∈ [1,100]` and `currentEnrolled ≥ 0`,
never `currentEnrolled ≤ maxParticipants`) and leaves the stored session
with `currentEnrolled = 7 > 5 = maxParticipants`. -/
theorem capacityInv_broken_by_update :
    createSession 100 owner payload0 = .ok created0 ∧
    capacityInv created0 ∧
    updateSession 150 owner created0 updBad = .ok created0Bad ∧
    applyOps created0 [.update 150 owner updBad] = created0Bad ∧
    ¬ capacityInv created0Bad := by decide

/-- C1 witness: the invariant after a create followed by a join, a leave
and a capacity-free update. -/
theorem capacityInv_after_capacity_safe_ops_witness :
    capacityInv (applyOps created0 [.add 150 7, .remove 7, .update 160 owner updSmuggle]) :=
  capacityInv_after_capacity_safe_ops 100 owner payload0 created0
    [.add 150 7, .remove 7, .update 160 owner updSmuggle]
    (by decide)
    (by
      intro op hop
      simp only [List.mem_cons, List.not_mem_nil, or_false] at hop
      rcases hop with rfl | rfl | rfl <;> trivial)

/-- One sequential join never decreases the seat bound accounting. -/
theorem seqStep_bound (now : Int) (uids : List Nat) :
    ∀ (s : Session) (c : Nat),
      (uids.foldl (seqStep now) (s, c)).2 ≤ c + (availableSeats s).toNat := by
  induction uids with
  | nil => intro s c; simp
  | cons uid rest ih =>
      intro s c
      simp only [List.foldl_cons]
      cases h : addParticipant now uid s with
      | error e =>
          have : seqStep now (s, c) uid = (s, c) := by simp [seqStep, h]
          rw [this]
          exact ih s c
      | ok t =>
          have hstep : seqStep now (s, c) uid = (t, c + 1) := by simp [seqStep, h]
          rw [hstep]
          have hcap := addParticipant_ok_capacity h
          have hseats : availableSeats t = availableSeats s - 1 := by
            unfold availableSeats; omega
          have := ih t (c + 1)
          unfold availableSeats at *
          omega

/-- C2 (amended): when join requests are serialized — each request's
load-check-append-save completes before the next begins — a session with
`availableSeats = k` admits at most `k` successful joins, however many
requests arrive. The code, however, does not serialize the sequence (see
the counterexample). -/
theorem sequential_joins_bounded (now : Int) (s : Session) (uids : List Nat) :
    (runSequential now s uids).2 ≤ (availableSeats s).toNat := by
  simpa [runSequential] using seqStep_bound now uids s 0

/-- `sBase` shrunk to a single free seat and an empty roster. -/
def sOne : Session :=
  { sBase with capacity := { maxParticipants := 1, currentEnrolled := 0 }, participants := [] }

/-- C2 counterexample: on a session with `maxParticipants = 1`,
`currentEnrolled = 0` (one free seat, `k = 1`), two concurrent joins whose
`findById` reads both happen before either write-back (interleaving
`[0, 1, 0, 1]`) both pass the capacity check and both succeed: 2 > k
successful joins, and the stored roster ends with 2 participants in a
1-seat session. The load-check-append-save sequence of `addParticipant`
is not serialized per session id. -/
theorem concurrent_joins_overshoot :
    availableSeats sOne = 1 ∧
    successCount (runConcurrent 7 sOne [100, 101] [0, 1, 0, 1]) = 2 ∧
    (runConcurrent 7 sOne [100, 101] [0, 1, 0, 1]).store.participants.length = 2 ∧
    sOne.capacity.maxParticipants = 1 := by decide

/-- The pre-save hook on a session with parsable, properly ordered times:
it recomputes `schedule.duration` and changes nothing else. -/
theorem preSaveHook_of_times {s : Session} {st et : Int}
    (hst : timeToMinutes s.schedule.startTime = some st)
    (het : timeToMinutes s.schedule.endTime = some et)
    (hne1 : s.schedule.startTime ≠ "") (hne2 : s.schedule.endTime ≠ "")
    (hpos : 0 < et - st) :
    preSaveHook s =
      .ok { s with schedule := { s.schedule with duration := some (et - st) } } := by
  unfold preSaveHook
  rw [if_pos (by simp [hne1, hne2])]
  simp only [hst, het]
  rw [if_neg (by omega)]

/-- A create body with `endTime` before `startTime`. -/
def payload5 : SessionPayload :=
  { payload0 with schedule := { date := 2000, startTime := "10:00", endTime := "09:30" } }

/-- A time string that parses is non-empty. -/
theorem timeToMinutes_ne_empty {x : String} {v : Int}
    (h : timeToMinutes x = some v) : x ≠ "" := by
  intro he
  rw [he] at h
  rw [show timeToMinutes "" = none from by decide] at h
  exact Option.noConfusion h

/-- The pre-save hook rejects a save whose computed span is non-positive. -/
theorem preSaveHook_error_of_nonpos {s : Session} {st et : Int}
    (hst : timeToMinutes s.schedule.startTime = some st)
    (het : timeToMinutes s.schedule.endTime = some et)
    (hle : et - st ≤ 0) :
    preSaveHook s = .error "End time must be after start time" := by
  unfold preSaveHook
  rw [if_pos (by simp [timeToMinutes_ne_empty hst, timeToMinutes_ne_empty het])]
  simp only [hst, het]
  rw [if_pos hle]

/-- C5 (amended): whenever a session is saved (the save path runs the
pre-save hook) with parsable times, `schedule.duration` is set to
`endTime - startTime` in minutes and a non-positive value aborts the save;
in particular creating a session with `startTime "10:00"`,
`endTime "09:30"` fails with "End time must be after start time". The
update path, however, bypasses the hook (see the counterexample): an
update replacing `schedule` with crossed times is accepted, with no
recomputed duration and no rejection, so not every mutation producing a
non-positive span is rejected. -/
theorem saved_duration_consistent :
    (∀ (s t : Session) (st et : Int),
        timeToMinutes s.schedule.startTime = some st →
        timeToMinutes s.schedule.endTime = some et →
        preSaveHook s = .ok t →
        t.schedule.duration = some (et - st) ∧ 0 < et - st) ∧
    (∀ (s : Session) (st et : Int),
        timeToMinutes s.schedule.startTime = some st →
        timeToMinutes s.schedule.endTime = some et →
        s.schedule.startTime ≠ "" → s.schedule.endTime ≠ "" →
        et - st ≤ 0 →
        preSaveHook s = .error "End time must be after start time") ∧
    createSession 100 owner payload5 = .error "End time must be after start time" := by
  refine ⟨?_, fun s st et hst het _ _ hle => preSaveHook_error_of_nonpos hst het hle, by decide⟩
  intro s t st et hst het h
  by_cases hpos : 0 < et - st
  · rw [preSaveHook_of_times hst het (timeToMinutes_ne_empty hst)
      (timeToMinutes_ne_empty het) hpos] at h
    cases h
    exact ⟨rfl, hpos⟩
  · rw [preSaveHook_error_of_nonpos hst het (by omega)] at h
    simp at h

/-- C5 witness: saving `sBase` recomputes its (already consistent)
duration `660 - 600 = 60` and that span is positive. -/
theorem saved_duration_consistent_witness :
    sBase.schedule.duration = some (660 - 600) ∧ (0 : Int) < 660 - 600 :=
  saved_duration_consistent.1 sBase sBase 600 660 (by decide) (by decide) (by decide)

/-- An update body carrying a full `schedule` object with the times
swapped to `10:00 → 09:30` (future date, both times pass the HH:MM regex,
so every update-path validation accepts it). -/
def updCross : UpdatePayload :=
  { emptyUpdate with
    schedule := some { date := some 2000, startTime := some "10:00", endTime := some "09:30" } }

/-- `sBase` after the `updCross` update: the `$set` replaces the whole
`schedule` subdocument with the payload, so the stored session holds the
crossed times and no `duration` at all (the payload carried none and the
hook never ran to recompute one). -/
def sCross : Session :=
  { sBase with schedule := { date := 2000, startTime := "10:00", endTime := "09:30", duration := none } }

/-- C5 counterexample: `updateSession` goes through `findByIdAndUpdate`,
which does not run the pre-save hook, so an update that makes
`endTime ≤ startTime` (span `570 - 600 = -30 ≤ 0`) is accepted: the
session is stored with crossed times and its `schedule.duration` dropped
by the subdocument replacement, with no recomputation and no rejection —
the claim's "any mutation producing a non-positive duration is rejected"
fails on the update path. -/
theorem update_skips_duration_check :
    updateSession 50 owner sBase updCross = .ok sCross ∧
    timeToMinutes sCross.schedule.startTime = some 600 ∧
    timeToMinutes sCross.schedule.endTime = some 570 ∧
    (570 : Int) - 600 ≤ 0 ∧
    sCross.schedule.duration = none := by decide

/-- C6 (amended): the strictly-future date check runs at creation
(a payload whose other validations pass but whose date is not in the
future is rejected); `updateSession` never re-validates the STORED date
(whether an update is accepted is independent of the stored
`schedule.date`, so sessions whose date has passed remain updatable); but
an update payload that itself sets `schedule.date` re-runs the future-date
validator (`runValidators: true`), so the check is not creation-only. -/
theorem future_date_check_at_create_and_update :
    (∀ (now : Int) (user : User) (b : SessionPayload),
        b.subject ≠ "" → b.description ≠ "" → b.schedule.date ≠ 0 →
        timeRegexTest b.schedule.startTime = true →
        timeRegexTest b.schedule.endTime = true →
        b.schedule.date ≤ now →
        createSession now user b = .error "Session date must be a valid future date") ∧
    (∀ (now : Int) (user : User) (s : Session) (u : UpdatePayload) (d : Int),
        (updateSession now user { s with schedule := { s.schedule with date := d } } u).isOk
          = (updateSession now user s u).isOk) ∧
    (∀ (now : Int) (user : User) (s : Session) (u : UpdatePayload) (sch : ScheduleU) (d : Int),
        u.schedule = some sch → sch.date = some d → d ≤ now →
        validateUpdatePayload u = .ok () →
        checkOwnershipOrAdmin s user = .ok () →
        updateSession now user s u = .error "Session date must be in the future") := by
  refine ⟨?_, ?_, ?_⟩
  · intro now user b hsub hdesc hd0 hr1 hr2 hle
    have hne1 : b.schedule.startTime ≠ "" := by
      intro h
      rw [h] at hr1
      exact absurd hr1 (by decide)
    have hne2 : b.schedule.endTime ≠ "" := by
      intro h
      rw [h] at hr2
      exact absurd hr2 (by decide)
    unfold createSession validateSessionPayload
    rw [if_neg (by simp [hsub, hdesc]), if_neg (by simp [hd0, hne1, hne2]),
      if_neg (by simp [hr1, hr2]), if_pos (by simp [hle])]
  · intro now user s u d
    unfold updateSession
    have hchk : checkOwnershipOrAdmin
        { s with schedule := { s.schedule with date := d } } user
        = checkOwnershipOrAdmin s user := rfl
    rw [hchk]
    cases validateUpdatePayload u with
    | error e => rfl
    | ok a =>
        cases checkOwnershipOrAdmin s user with
        | error e => rfl
        | ok b =>
            cases updateValidators now u with
            | error e => rfl
            | ok c => rfl
  · intro now user s u sch d husch hdate hle hval hown
    unfold updateSession
    rw [hval, hown]
    have hvald : updateValidators now u = .error "Session date must be in the future" := by
      unfold updateValidators
      rw [husch]
      dsimp only
      rw [hdate]
      dsimp only
      rw [if_pos hle]
    rw [hvald]

/-- A create body whose date (50) is not in the future of `now = 100`. -/
def payloadPast : SessionPayload :=
  { payload0 with schedule := { date := 50, startTime := "10:00", endTime := "11:00" } }

/-- C6 witness: creation at time 100 with date 50 is rejected, acceptance
of `updSmuggle` on `sBase` does not change when the stored date is moved
to the past (5), and an update carrying date 5 at time 50 is rejected. -/
theorem future_date_check_witness :
    createSession 100 owner payloadPast = .error "Session date must be a valid future date" ∧
    (updateSession 50 owner { sBase with schedule := { sBase.schedule with date := 5 } }
        updSmuggle).isOk = (updateSession 50 owner sBase updSmuggle).isOk :=
  ⟨future_date_check_at_create_and_update.1 100 owner payloadPast (by decide) (by decide)
      (by decide) (by decide) (by decide) (by decide),
    future_date_check_at_create_and_update.2.1 50 owner sBase updSmuggle 5⟩

/-- An update body setting `schedule.date` to 5 (in the past of 50). -/
def updPast : UpdatePayload :=
  { emptyUpdate with schedule := some { date := some 5, startTime := none, endTime := none } }

/-- C6 counterexample: an update that sets `schedule.date` to a past value
is REJECTED by the re-run future-date validator — the claim's "the
future-date check ... is not re-applied on update" is false. -/
theorem update_date_validator_reapplied :
    updateSession 50 owner sBase updPast = .error "Session date must be in the future" := by
  decide

/-- C7 (amended): with `includeCompleted` absent or `"false"` the list
filter admits exactly the sessions with `status = "scheduled"` and
`schedule.date ≥ now` — an explicit `status` override is ignored on this
default branch; with `includeCompleted` lower-casing to `"true"` it admits
exactly statuses scheduled/in-progress/completed (cancelled excluded, no
date bound, `status` again ignored); only when `includeCompleted` is some
other value does a truthy `status ≠ "all"` act as the filter. -/
theorem list_filter_spec :
    (∀ (status : Option String) (now : Int) (s : Session),
        filterMatches (buildStatusDateFilter none status) now s = true ↔
          (s.status = "scheduled" ∧ now ≤ s.schedule.date)) ∧
    (∀ (status : Option String) (now : Int) (s : Session),
        filterMatches (buildStatusDateFilter (some "false") status) now s = true ↔
          (s.status = "scheduled" ∧ now ≤ s.schedule.date)) ∧
    (∀ (ic : String) (status : Option String) (now : Int) (s : Session),
        ic ≠ "false" → jsToLower ic = "true" →
        (filterMatches (buildStatusDateFilter (some ic) status) now s = true ↔
          (s.status = "scheduled" ∨ s.status = "in-progress" ∨ s.status = "completed"))) ∧
    (∀ (ic : String) (status : Option String) (now : Int) (s : Session),
        ic ≠ "false" → jsToLower ic ≠ "true" →
        status.getD "scheduled" ≠ "" → status.getD "scheduled" ≠ "all" →
        (filterMatches (buildStatusDateFilter (some ic) status) now s = true ↔
          s.status = status.getD "scheduled")) := by
  refine ⟨?_, ?_, ?_, ?_⟩
  · intro status now s
    simp [buildStatusDateFilter, filterMatches]
  · intro status now s
    simp [buildStatusDateFilter, filterMatches]
  · intro ic status now s h1 h2
    unfold buildStatusDateFilter
    dsimp only
    rw [if_neg h1, if_pos h2]
    simp [filterMatches]
  · intro ic status now s h1 h2 h3 h4
    unfold buildStatusDateFilter
    dsimp only
    rw [if_neg h1, if_neg h2, if_pos (by simp [h3, h4])]
    simp [filterMatches]

/-- C7 witness: a non-boolean `includeCompleted="1"` reaches the explicit
status branch, where `status="completed"` admits a completed session. -/
theorem list_filter_spec_witness :
    filterMatches (buildStatusDateFilter (some "1") (some "completed")) 0
      { sBase with status := "completed" } = true :=
  (list_filter_spec.2.2.2 "1" (some "completed") 0 { sBase with status := "completed" }
    (by decide) (by decide) (by decide) (by decide)).mpr rfl

/-- C7 counterexample: with `includeCompleted` absent (default `false`),
an explicit `status="completed"` override does NOT apply — the built
filter still restricts to `status = "scheduled"`, so a future-dated
completed session is not matched, contradicting the claim's "an explicit
status override ... applies instead of the default". -/
theorem status_override_ignored_by_default :
    buildStatusDateFilter none (some "completed") =
      { statusIn := some ["scheduled"], dateGteNow := true } ∧
    filterMatches (buildStatusDateFilter none (some "completed")) 0
      { sBase with status := "completed" } = false := by
  decide

end QEB
